import Mathlib

/-!
Verification development for the trade-insights backend
(`trading_bot.py`): the Market Data Gateway (`get_stock_info`), the
News Collector (`search_news`), the Portfolio Analytics Engine
(`get_portfolio_analytics`), and the orchestration endpoints
(`trade_insights`, `portfolio_analytics`).

Modelling conventions:
- Python floats are modelled as rationals (`ℚ`); all arithmetic in the
  pipeline is finite and the only comparisons at stake are against the
  literals 0.05 and 0.1, which the rational model preserves.
- External collaborators (yfinance fetch, the `ta`/pandas indicator
  computations, the DDGS news search, the Together synthesis call) are
  modelled as explicit parameters: a fetch/search/synthesis outcome of
  type `Except`, and an `IndicatorLib` record of opaque numeric
  functions standing for the library indicator formulas.  The guards,
  field wiring and error handling around them are translated from the
  source.
- Python truthiness tests on optional floats (`if info.price and ...`,
  `if volatility and ...`, `if avg_vol`) are modelled by `truthy`:
  false for `none` and for `some 0`, true otherwise.
- A Python dict (holdings, stats) is modelled as an association list in
  iteration (insertion) order.
-/

/-- Python truthiness of an optional float: `None` and `0.0` are falsy,
every other value is truthy. -/
def truthy : Option ℚ → Bool
  | none => false
  | some v => v != 0

/-- One row of the yfinance history frame (the `Open` column is never
read by the source, so it is omitted). -/
structure HistBar where
  high : ℚ
  low : ℚ
  close : ℚ
  volume : ℚ
deriving DecidableEq, Repr

/-- The fields of `ticker.info` read by `get_stock_info`. -/
structure TickerQuote where
  shortName : Option String := none
  regularMarketPrice : Option ℚ := none
  regularMarketPreviousClose : Option ℚ := none
  currency : Option String := none
deriving DecidableEq, Repr

/-- A successful upstream fetch: price/volume history plus quote. -/
structure MarketFetch where
  hist : List HistBar
  info : TickerQuote
deriving DecidableEq, Repr

/-- Opaque numeric collaborators standing for the `ta` / pandas
indicator formulas invoked by `get_stock_info`.  The source only
controls which of them run (window guards) and where their results go;
the formulas themselves live in third-party libraries. -/
structure IndicatorLib where
  rsiF : List ℚ → ℚ
  macdF : List ℚ → ℚ
  bollUpperF : List ℚ → ℚ
  bollLowerF : List ℚ → ℚ
  mfiF : List ℚ → List ℚ → List ℚ → List ℚ → ℚ
  obvF : List ℚ → List ℚ → ℚ
  atrF : List ℚ → List ℚ → List ℚ → ℚ
  volF : List ℚ → ℚ

/-- The `StockInfo` pydantic model: every field defaults to `None`. -/
structure StockInfo where
  name : Option String := none
  symbol : Option String := none
  price : Option ℚ := none
  previous_close : Option ℚ := none
  currency : Option String := none
  price_week_ago : Option ℚ := none
  price_month_ago : Option ℚ := none
  volume : Option ℚ := none
  avg_volume : Option ℚ := none
  volatility : Option ℚ := none
  rsi : Option ℚ := none
  macd : Option ℚ := none
  boll_upper : Option ℚ := none
  boll_lower : Option ℚ := none
  mfi : Option ℚ := none
  obv : Option ℚ := none
  atr : Option ℚ := none
  alert : Option String := none
deriving DecidableEq, Repr

/-- `get_stock_info(symbol)` translated from the source.  `fetch` is the
outcome of the whole guarded block (`yf.Ticker`, `.history`, `.info` and
the indicator calls): `Except.error` models any exception raised inside
the `try`, in which case the source returns `StockInfo(symbol=symbol)`.
On success the window guards, the volatility/alert logic and the field
wiring follow lines 106-148 of `trading_bot.py`. -/
def get_stock_info (lib : IndicatorLib) (symbol : String)
    (fetch : Except Unit MarketFetch) : StockInfo :=
  match fetch with
  | .error _ => { symbol := some symbol }
  | .ok f =>
    let close := f.hist.map (fun b => b.close)
    let volume := f.hist.map (fun b => b.volume)
    let high := f.hist.map (fun b => b.high)
    let low := f.hist.map (fun b => b.low)
    let n := close.length
    let rsi := if 14 ≤ n then some (lib.rsiF close) else none
    let macd := if 26 ≤ n then some (lib.macdF close) else none
    let boll_upper := if 20 ≤ n then some (lib.bollUpperF close) else none
    let boll_lower := if 20 ≤ n then some (lib.bollLowerF close) else none
    let mfi := if 14 ≤ n then some (lib.mfiF high low close volume) else none
    let obv := if 2 ≤ n then some (lib.obvF close volume) else none
    let atr := if 14 ≤ n then some (lib.atrF high low close) else none
    let volatility := if 1 < n then some (lib.volF close) else none
    let alert :=
      if truthy volatility && decide ((1/20 : ℚ) < volatility.getD 0) then
        some "⚠️ Unusual volatility detected!"
      else none
    { name := f.info.shortName
      symbol := some symbol
      price := f.info.regularMarketPrice
      previous_close := f.info.regularMarketPreviousClose
      currency := f.info.currency
      price_week_ago := if 5 < n then close.get? (n - 6) else none
      price_month_ago := if 0 < n then close.get? 0 else none
      volume := if 0 < volume.length then volume.getLast? else none
      avg_volume := if 0 < volume.length then some (volume.sum / volume.length) else none
      volatility := volatility
      rsi := rsi
      macd := macd
      boll_upper := boll_upper
      boll_lower := boll_lower
      mfi := mfi
      obv := obv
      atr := atr
      alert := alert }

/-- The `NewsItem` pydantic model. -/
structure NewsItem where
  title : String
  link : String
  snippet : String
  date : Option String := none
  sentiment : Option String := none
deriving DecidableEq, Repr

/-- One raw result from the DDGS news search (the keys read by the
source: `title`, `url`, `body`). -/
structure RawNewsResult where
  title : String
  url : String
  body : String
deriving DecidableEq, Repr

/-- The rotating placeholder sentiment label: `sentiments[i % 3]` with
`sentiments = ["positive", "negative", "neutral"]`. -/
def sentimentAt (i : Nat) : String :=
  match i % 3 with
  | 0 => "positive"
  | 1 => "negative"
  | _ => "neutral"

/-- `search_news(query, max_results)` translated from the source.
`outcome` is the DDGS collaborator's response (`Except.error` models
any exception inside the `try`, on which the source returns `[]`);
`today` stands for `datetime.now().strftime` used for the `date`
stamp.  `query` and `max_results` only parameterize the external call,
whose behaviour is already summarized by `outcome`. -/
def search_news (query : String) (max_results : Nat) (today : String)
    (outcome : Except Unit (List RawNewsResult)) : List NewsItem :=
  match outcome with
  | .error _ => []
  | .ok results =>
    results.enum.map (fun p =>
      { title := p.2.title
        link := p.2.url
        snippet := p.2.body
        date := some today
        sentiment := some (sentimentAt p.1) })

/-- The `PortfolioAnalytics` pydantic model. -/
structure PortfolioAnalytics where
  total_value : ℚ
  returns : ℚ
  volatility : ℚ
  sharpe : ℚ
  drawdown : ℚ
  risk_level : String
deriving DecidableEq, Repr

/-- The accumulation loop of `get_portfolio_analytics` (lines 182-188):
for each holding, resolve its `StockInfo`; if `info.price and
info.price_month_ago` is truthy, add `price*qty` to the running total
and append the month-over-month return and `info.volatility or 0` to
the running lists.  (The source also accumulates a `prices` list that
is never read afterwards; it is omitted.)  The state is
`(total_value, returns, vols)`. -/
def gpaLoop (resolve : String → StockInfo) :
    List (String × ℚ) → ℚ × List ℚ × List ℚ → ℚ × List ℚ × List ℚ
  | [], st => st
  | (symbol, qty) :: rest, (total_value, returns, vols) =>
    let info := resolve symbol
    if truthy info.price && truthy info.price_month_ago then
      gpaLoop resolve rest
        (total_value + info.price.getD 0 * qty,
         returns ++ [(info.price.getD 0 - info.price_month_ago.getD 0) / info.price_month_ago.getD 0],
         vols ++ [info.volatility.getD 0])
    else
      gpaLoop resolve rest (total_value, returns, vols)

/-- Minimum of a list, `min(returns)` style (caller guards emptiness). -/
def listMin : List ℚ → ℚ
  | [] => 0
  | x :: xs => xs.foldl min x

/-- `get_portfolio_analytics(holdings)` translated from lines 177-205.
`resolve` stands for `get_stock_info` under the request's market
conditions; `holdings` is the dict in iteration order. -/
def get_portfolio_analytics (resolve : String → StockInfo)
    (holdings : List (String × ℚ)) : PortfolioAnalytics :=
  let st := gpaLoop resolve holdings (0, [], [])
  let total_value := st.1
  let returns := st.2.1
  let vols := st.2.2
  let avg_return := if returns = [] then 0 else returns.sum / returns.length
  let avg_vol := if vols = [] then 0 else vols.sum / vols.length
  let sharpe := if avg_vol ≠ 0 then avg_return / avg_vol else 0
  let drawdown := if returns = [] then 0 else listMin returns
  let risk_level := "Low"
  let risk_level := if (1/20 : ℚ) < avg_vol then "Medium" else risk_level
  let risk_level := if (1/10 : ℚ) < avg_vol then "High" else risk_level
  { total_value := total_value
    returns := avg_return
    volatility := avg_vol
    sharpe := sharpe
    drawdown := drawdown
    risk_level := risk_level }

/-- The `/trade-insights` response shape: both branches carry a result
string and the gathered stats map; `is_error` marks the 500 branch. -/
structure TradeInsightsResponse where
  is_error : Bool
  result : String
  stats : List (String × StockInfo)
deriving DecidableEq, Repr

/-- Which upstream calls a request issued: the per-symbol market-data
calls, the news-search call, and the synthesis call. -/
structure UpstreamLog where
  market_symbols : List String
  news_called : Bool
  synth_called : Bool
deriving DecidableEq, Repr

/-- The `/trade-insights` endpoint (lines 229-264) translated from the
source, paired with the log of upstream calls it makes.  The handler
unconditionally gathers `stats` (one `get_stock_info` call per ticker),
calls `search_news` on the space-joined tickers, reads the (local,
simulated) economic calendar, and then attempts the synthesis call
whose outcome is `synthOutcome`; on synthesis failure it returns a 500
body carrying the same `stats`.  No input validation occurs anywhere on
the path. -/
def trade_insights (resolve : String → StockInfo) (today : String)
    (newsOutcome : Except Unit (List RawNewsResult))
    (synthOutcome : Except String String)
    (tickers : List String) : TradeInsightsResponse × UpstreamLog :=
  let stats := tickers.map (fun s => (s, resolve s))
  let _news := search_news (String.intercalate " " tickers) 5 today newsOutcome
  let log : UpstreamLog :=
    { market_symbols := tickers, news_called := true, synth_called := true }
  match synthOutcome with
  | .ok text => ({ is_error := false, result := text, stats := stats }, log)
  | .error e => ({ is_error := true, result := "Error: " ++ e, stats := stats }, log)

/-- The sequence of symbols `get_portfolio_analytics` passes to
`get_stock_info`: the loop at line 182 calls `get_stock_info(symbol)`
for every entry of the holdings dict, before (and regardless of) any
check on the resolved prices or the quantity. -/
def portfolio_upstream_calls (holdings : List (String × ℚ)) : List String :=
  holdings.map Prod.fst

/-- The holdings entries that the analytics loop includes: those whose
resolved `price` and `price_month_ago` are both truthy (present and
nonzero), paired with their quantity, in order. -/
def includedEntries (resolve : String → StockInfo)
    (holdings : List (String × ℚ)) : List (StockInfo × ℚ) :=
  (holdings.map (fun p => (resolve p.1, p.2))).filter
    (fun p => truthy p.1.price && truthy p.1.price_month_ago)

/-- The month-over-month return expression of line 186. -/
def monthReturn (i : StockInfo) : ℚ :=
  (i.price.getD 0 - i.price_month_ago.getD 0) / i.price_month_ago.getD 0

/-- Arithmetic mean of a list, 0 when empty (`sum(l)/len(l) if l else 0`). -/
def listMean (l : List ℚ) : ℚ :=
  if l = [] then 0 else l.sum / l.length

/-- The divisors actually used by the return expression of line 186:
one `price_month_ago` per included holding. -/
def divisorsUsed (resolve : String → StockInfo)
    (holdings : List (String × ℚ)) : List ℚ :=
  (includedEntries resolve holdings).map (fun p => p.1.price_month_ago.getD 0)

/-- Replace a resolved price of exactly 0 by an absent price, in the
two fields the inclusion test of line 184 reads. -/
def maskZeroPrices (i : StockInfo) : StockInfo :=
  { i with
    price := if i.price = some 0 then none else i.price
    price_month_ago := if i.price_month_ago = some 0 then none else i.price_month_ago }

/-! ### Concrete resolvers used by counterexamples and witnesses -/

/-- Resolver for the risk-threshold boundary: every symbol resolves to
price 2, month-ago price 1, annualized volatility exactly 0.05. -/
def boundaryResolver : String → StockInfo :=
  fun _ => { price := some 2, price_month_ago := some 1, volatility := some (1/20 : ℚ) }

/-- Resolver for the invalid-input check: every symbol resolves to
price 10, month-ago price 10, volatility 0. -/
def plainResolver : String → StockInfo :=
  fun _ => { price := some 10, price_month_ago := some 10, volatility := some 0 }

/-- Resolver whose month-ago price is present but exactly 0. -/
def zeroMonthResolver : String → StockInfo :=
  fun _ => { price := some 3, price_month_ago := some 0, volatility := some 1 }

/-- All indicator collaborators constantly 0. -/
def constLib : IndicatorLib :=
  { rsiF := fun _ => 0
    macdF := fun _ => 0
    bollUpperF := fun _ => 0
    bollLowerF := fun _ => 0
    mfiF := fun _ _ _ _ => 0
    obvF := fun _ _ => 0
    atrF := fun _ _ _ => 0
    volF := fun _ => 0 }

/-- Indicator collaborators whose volatility formula returns 1. -/
def highVolLib : IndicatorLib :=
  { rsiF := fun _ => 0
    macdF := fun _ => 0
    bollUpperF := fun _ => 0
    bollLowerF := fun _ => 0
    mfiF := fun _ _ _ _ => 0
    obvF := fun _ _ => 0
    atrF := fun _ _ _ => 0
    volF := fun _ => 1 }

/-- A two-bar history with a flat quote. -/
def twoBarFetch : MarketFetch :=
  { hist := [{ high := 1, low := 1, close := 1, volume := 1 },
             { high := 1, low := 1, close := 1, volume := 1 }]
    info := {} }

/-! ### C8, C9: total-failure fallbacks -/

/-- Claim C8: if the upstream market-data source fails entirely (any
exception inside the guarded block), `get_stock_info` returns a
`StockInfo` whose `symbol` field is the requested symbol and every
other field is absent. -/
theorem get_stock_info_total_failure (lib : IndicatorLib) (symbol : String) :
    get_stock_info lib symbol (.error ()) =
      { symbol := some symbol, name := none, price := none,
        previous_close := none, currency := none, price_week_ago := none,
        price_month_ago := none, volume := none, avg_volume := none,
        volatility := none, rsi := none, macd := none, boll_upper := none,
        boll_lower := none, mfi := none, obv := none, atr := none,
        alert := none } := rfl

/-- Claim C9: if the external news search collaborator fails with any
exception, `search_news` returns the empty list for every query,
result bound and date stamp. -/
theorem search_news_failure_empty (query : String) (max_results : Nat)
    (today : String) :
    search_news query max_results today (.error ()) = [] := rfl

/-! ### C3: synthesis failure preserves the gathered stats -/

/-- Claim C3: when the synthesis call fails after data gathering,
`trade_insights` returns an explicit error response whose `stats` field
still carries the gathered per-symbol `StockInfo` values, and that map
equals `get_stock_info` applied directly to the same tickers. -/
theorem trade_insights_synth_failure_preserves_stats
    (lib : IndicatorLib) (fetch : String → Except Unit MarketFetch)
    (today : String) (newsOutcome : Except Unit (List RawNewsResult))
    (e : String) (tickers : List String) :
    ((trade_insights (fun s => get_stock_info lib s (fetch s)) today
        newsOutcome (.error e) tickers).1.is_error = true)
    ∧ (trade_insights (fun s => get_stock_info lib s (fetch s)) today
        newsOutcome (.error e) tickers).1.stats =
        tickers.map (fun s => (s, get_stock_info lib s (fetch s))) := by
  constructor <;> rfl

/-! ### C2: no input validation before upstream calls -/

/-- Claim C2 failing input: the endpoints do not reject invalid input
before upstream calls.  With an empty ticker list, `/trade-insights`
still issues the news-search and synthesis calls; with the holdings map
`{AAPL: -5}`, `/portfolio-analytics` still issues the market-data call
for `AAPL` and returns an analytics object whose `total_value` is the
negative contribution `10 * (-5) = -50`. -/
theorem endpoints_process_invalid_input :
    ((trade_insights plainResolver "2026-01-01" (.ok []) (.ok "ok") []).2.news_called = true)
    ∧ ((trade_insights plainResolver "2026-01-01" (.ok []) (.ok "ok") []).2.synth_called = true)
    ∧ portfolio_upstream_calls [("AAPL", (-5 : ℚ))] = ["AAPL"]
    ∧ (get_portfolio_analytics plainResolver [("AAPL", (-5 : ℚ))]).total_value = -50 := by
  refine ⟨rfl, rfl, rfl, ?_⟩
  simp [get_portfolio_analytics, gpaLoop, plainResolver, truthy]
  norm_num

/-! ### C1: risk-level thresholds -/

/-- Claim C1 counterexample: with a single holding whose aggregate
volatility is exactly 0.05, the computed `risk_level` is `"Low"`, not
`"Medium"` as the claim requires for volatility in [0.05, 0.10). -/
theorem risk_level_boundary_cex :
    (get_portfolio_analytics boundaryResolver [("A", 1)]).volatility = (1/20 : ℚ)
    ∧ (get_portfolio_analytics boundaryResolver [("A", 1)]).risk_level = "Low"
    ∧ (get_portfolio_analytics boundaryResolver [("A", 1)]).risk_level ≠ "Medium" := by
  have h : get_portfolio_analytics boundaryResolver [("A", 1)] =
      { total_value := 2, returns := 1, volatility := 1/20, sharpe := 20,
        drawdown := 1, risk_level := "Low" } := by
    simp [get_portfolio_analytics, gpaLoop, boundaryResolver, truthy, listMin]
    norm_num
  rw [h]
  refine ⟨rfl, rfl, by simp⟩

/-- Claim C1 (amended): for every resolver and holdings map the
computed `risk_level` is a pure function of the computed aggregate
volatility with strict thresholds: `"High"` for volatility > 0.10,
`"Medium"` for 0.05 < volatility ≤ 0.10, `"Low"` for
volatility ≤ 0.05. -/
theorem risk_level_thresholds (resolve : String → StockInfo)
    (holdings : List (String × ℚ)) :
    (get_portfolio_analytics resolve holdings).risk_level =
      (if (1/10 : ℚ) < (get_portfolio_analytics resolve holdings).volatility then "High"
       else if (1/20 : ℚ) < (get_portfolio_analytics resolve holdings).volatility then "Medium"
       else "Low") := rfl

/-! ### C4, C10: the analytics loop as a filter over holdings -/

/-- Characterization of the accumulation loop: starting from any
state, it adds the included holdings' value to the total and appends
their returns and volatilities in order. -/
theorem gpaLoop_spec (resolve : String → StockInfo)
    (hs : List (String × ℚ)) : ∀ t rs vs,
    gpaLoop resolve hs (t, rs, vs) =
      (t + ((includedEntries resolve hs).map (fun p => p.1.price.getD 0 * p.2)).sum,
       rs ++ (includedEntries resolve hs).map (fun p => monthReturn p.1),
       vs ++ (includedEntries resolve hs).map (fun p => p.1.volatility.getD 0)) := by
  induction hs with
  | nil => intro t rs vs; simp [gpaLoop, includedEntries]
  | cons x xs ih =>
    intro t rs vs
    obtain ⟨symbol, qty⟩ := x
    cases hcond : truthy (resolve symbol).price && truthy (resolve symbol).price_month_ago with
    | true =>
      simp [gpaLoop, hcond, includedEntries, List.filter_cons, ih, monthReturn, add_assoc]
    | false =>
      simp [gpaLoop, hcond, includedEntries, List.filter_cons, ih]

/-- Claim C4 counterexample: with the holdings map `{A: 2}` and a
resolver whose `price` (3) and `price_month_ago` (0) are both present,
the holding is nevertheless excluded: `total_value` is 0, not the
claimed `price*qty = 6`.  Presence alone is not the inclusion
criterion; the truthiness test also drops a present value of exactly 0. -/
theorem included_iff_present_cex :
    (zeroMonthResolver "A").price = some 3
    ∧ (zeroMonthResolver "A").price_month_ago = some 0
    ∧ (get_portfolio_analytics zeroMonthResolver [("A", 2)]).total_value = 0
    ∧ (get_portfolio_analytics zeroMonthResolver [("A", 2)]).total_value ≠ 3 * 2 := by
  have h : (get_portfolio_analytics zeroMonthResolver [("A", 2)]).total_value = 0 := by
    simp [get_portfolio_analytics, gpaLoop, zeroMonthResolver, truthy]
  refine ⟨rfl, rfl, h, ?_⟩
  rw [h]; norm_num

/-- Claim C4 (amended): `get_portfolio_analytics` includes exactly the
holdings whose resolved `price` and `price_month_ago` are both present
and nonzero (`includedEntries`): `total_value` is the sum of
`price*qty` over them, `returns` and `volatility` are arithmetic means
over them (0 if none), `sharpe` is `returns/volatility` when the
volatility is nonzero and 0 otherwise, and `drawdown` is the minimum
individual return (0 if none); excluded holdings never abort the
computation. -/
theorem portfolio_analytics_included_holdings (resolve : String → StockInfo)
    (holdings : List (String × ℚ)) :
    (get_portfolio_analytics resolve holdings).total_value =
      ((includedEntries resolve holdings).map (fun p => p.1.price.getD 0 * p.2)).sum
    ∧ (get_portfolio_analytics resolve holdings).returns =
      listMean ((includedEntries resolve holdings).map (fun p => monthReturn p.1))
    ∧ (get_portfolio_analytics resolve holdings).volatility =
      listMean ((includedEntries resolve holdings).map (fun p => p.1.volatility.getD 0))
    ∧ (get_portfolio_analytics resolve holdings).sharpe =
      (if (get_portfolio_analytics resolve holdings).volatility ≠ 0 then
        (get_portfolio_analytics resolve holdings).returns /
          (get_portfolio_analytics resolve holdings).volatility
       else 0)
    ∧ (get_portfolio_analytics resolve holdings).drawdown =
      listMin ((includedEntries resolve holdings).map (fun p => monthReturn p.1)) := by
  have hloop := gpaLoop_spec resolve holdings 0 [] []
  refine ⟨?_, ?_, ?_, ?_, ?_⟩ <;>
    simp only [get_portfolio_analytics, hloop, List.nil_append, zero_add, listMean] <;>
    try rfl
  by_cases hR : (includedEntries resolve holdings).map (fun p => monthReturn p.1) = [] <;>
    simp [hR, listMin]

/-- Masking a zero price does not change its truthiness. -/
theorem truthy_maskZero_price (i : StockInfo) :
    truthy (maskZeroPrices i).price = truthy i.price := by
  cases hp : i.price with
  | none => simp [maskZeroPrices, hp]
  | some v =>
    by_cases hv : v = 0 <;> simp [maskZeroPrices, hp, hv, truthy]

/-- Masking a zero month-ago price does not change its truthiness. -/
theorem truthy_maskZero_month (i : StockInfo) :
    truthy (maskZeroPrices i).price_month_ago = truthy i.price_month_ago := by
  cases hp : i.price_month_ago with
  | none => simp [maskZeroPrices, hp]
  | some v =>
    by_cases hv : v = 0 <;> simp [maskZeroPrices, hp, hv, truthy]

/-- On an included holding (both prices truthy) the mask is the identity. -/
theorem maskZeroPrices_eq_of_truthy (i : StockInfo)
    (hp : truthy i.price = true) (hm : truthy i.price_month_ago = true) :
    maskZeroPrices i = i := by
  have h1 : i.price ≠ some 0 := by
    cases h : i.price with
    | none => simp [truthy, h] at hp
    | some v => simp [truthy, h] at hp; simp [hp]
  have h2 : i.price_month_ago ≠ some 0 := by
    cases h : i.price_month_ago with
    | none => simp [truthy, h] at hm
    | some v => simp [truthy, h] at hm; simp [hm]
  simp [maskZeroPrices, h1, h2]

/-- The included-holdings list is unchanged by masking zero prices to
absent ones. -/
theorem includedEntries_mask (resolve : String → StockInfo)
    (hs : List (String × ℚ)) :
    includedEntries (fun s => maskZeroPrices (resolve s)) hs =
      includedEntries resolve hs := by
  induction hs with
  | nil => rfl
  | cons x xs ih =>
    obtain ⟨symbol, qty⟩ := x
    simp only [includedEntries, List.map_cons, List.filter_cons] at ih ⊢
    rw [truthy_maskZero_price, truthy_maskZero_month]
    cases hcond : truthy (resolve symbol).price && truthy (resolve symbol).price_month_ago with
    | true =>
      rw [Bool.and_eq_true] at hcond
      simp only [hcond.1, hcond.2, Bool.and_self, if_pos]
      rw [maskZeroPrices_eq_of_truthy (resolve symbol) hcond.1 hcond.2]
      exact congrArg _ ih
    | false => simpa [hcond] using ih

/-- Claim C10: a holding whose resolved `price` or `price_month_ago`
is exactly 0 is treated identically to one whose corresponding field is
absent — the analytics result is invariant under masking zero prices to
`none` — and every divisor used by the month-over-month return
expression is nonzero. -/
theorem zero_price_treated_as_absent (resolve : String → StockInfo)
    (holdings : List (String × ℚ)) :
    get_portfolio_analytics (fun s => maskZeroPrices (resolve s)) holdings =
      get_portfolio_analytics resolve holdings
    ∧ (divisorsUsed resolve holdings).all (fun d => d != 0) = true := by
  constructor
  · have h1 := gpaLoop_spec (fun s => maskZeroPrices (resolve s)) holdings 0 [] []
    have h2 := gpaLoop_spec resolve holdings 0 [] []
    simp only [get_portfolio_analytics, h1, h2, includedEntries_mask]
  · rw [List.all_eq_true]
    intro d hd
    simp only [divisorsUsed, includedEntries, List.mem_map] at hd
    obtain ⟨p, hp, hpd⟩ := hd
    have hmem := List.of_mem_filter hp
    rw [Bool.and_eq_true] at hmem
    cases hm : p.1.price_month_ago with
    | none =>
      have := hmem.2
      rw [hm] at this
      simp [truthy] at this
    | some v =>
      have : v ≠ 0 := by
        have := hmem.2
        rw [hm] at this
        simpa [truthy] using this
      subst hpd
      simp [hm, this]

/-! ### C6, C7: indicator windows and the volatility alert -/

/-- Claim C6: for every price series, `get_stock_info` omits each
indicator whose minimum window is not met: RSI, MFI and ATR are absent
below 14 bars; the Bollinger bands below 20; MACD below 26; annualized
volatility and OBV below 2. -/
theorem indicator_minimum_windows (lib : IndicatorLib) (symbol : String)
    (f : MarketFetch) :
    (f.hist.length < 14 →
      (get_stock_info lib symbol (.ok f)).rsi = none
      ∧ (get_stock_info lib symbol (.ok f)).mfi = none
      ∧ (get_stock_info lib symbol (.ok f)).atr = none)
    ∧ (f.hist.length < 20 →
      (get_stock_info lib symbol (.ok f)).boll_upper = none
      ∧ (get_stock_info lib symbol (.ok f)).boll_lower = none)
    ∧ (f.hist.length < 26 → (get_stock_info lib symbol (.ok f)).macd = none)
    ∧ (f.hist.length < 2 →
      (get_stock_info lib symbol (.ok f)).volatility = none
      ∧ (get_stock_info lib symbol (.ok f)).obv = none) := by
  refine ⟨fun h => ⟨?_, ?_, ?_⟩, fun h => ⟨?_, ?_⟩, fun h => ?_, fun h => ⟨?_, ?_⟩⟩ <;>
    simp [get_stock_info] <;> omega

/-- Witness for C6 at the empty series: every windowed indicator is
absent. -/
theorem indicator_minimum_windows_witness :
    (get_stock_info constLib "X" (.ok { hist := [], info := {} })).rsi = none
    ∧ (get_stock_info constLib "X" (.ok { hist := [], info := {} })).mfi = none
    ∧ (get_stock_info constLib "X" (.ok { hist := [], info := {} })).atr = none
    ∧ (get_stock_info constLib "X" (.ok { hist := [], info := {} })).boll_upper = none
    ∧ (get_stock_info constLib "X" (.ok { hist := [], info := {} })).boll_lower = none
    ∧ (get_stock_info constLib "X" (.ok { hist := [], info := {} })).macd = none
    ∧ (get_stock_info constLib "X" (.ok { hist := [], info := {} })).volatility = none
    ∧ (get_stock_info constLib "X" (.ok { hist := [], info := {} })).obv = none := by
  have h := indicator_minimum_windows constLib "X" { hist := [], info := {} }
  exact ⟨(h.1 (by decide)).1, (h.1 (by decide)).2.1, (h.1 (by decide)).2.2,
         (h.2.1 (by decide)).1, (h.2.1 (by decide)).2,
         h.2.2.1 (by decide),
         (h.2.2.2 (by decide)).1, (h.2.2.2 (by decide)).2⟩

/-- Claim C7: the `alert` field of the `StockInfo` returned by
`get_stock_info` is set if and only if the computed annualized
volatility is present and strictly greater than 0.05; otherwise
(volatility absent or at most 0.05) the alert is absent. -/
theorem alert_iff_high_volatility (lib : IndicatorLib) (symbol : String)
    (fetch : Except Unit MarketFetch) :
    (get_stock_info lib symbol fetch).alert.isSome = true ↔
      ∃ v, (get_stock_info lib symbol fetch).volatility = some v
        ∧ (1/20 : ℚ) < v := by
  cases fetch with
  | error e => simp [get_stock_info]
  | ok f =>
    by_cases hn : 1 < f.hist.length
    · simp [get_stock_info, hn, truthy, bne_iff_ne]
      exact fun h => ne_of_gt (lt_trans (by norm_num) h)
    · simp [get_stock_info, hn]

/-- Witness for C7: a two-bar series with a volatility formula
returning 1 (> 0.05) carries an alert. -/
theorem alert_iff_high_volatility_witness :
    (get_stock_info highVolLib "X" (.ok twoBarFetch)).alert.isSome = true :=
  (alert_iff_high_volatility highVolLib "X" (.ok twoBarFetch)).mpr
    ⟨1, by norm_num [get_stock_info, twoBarFetch, highVolLib], by norm_num⟩
